import Mathlib

/-!
# MetroRetail ingestion pipeline — verification of the core loading subsystem

Shallow embedding of the manifest-tracked batch-loading pipeline of the
MetroRetail repository (`pipelines/db_utils.py`, `pipelines/ingest_csv.py`,
`pipelines/config.py`) together with proofs of the specified properties.

Modelling conventions:
* Python scalar cell values are `PyValue` (strings, ints, float NaN, `None`);
  their `str()` coercion is `pyStr`.
* The database is passed explicitly: the manifest ledger is a
  `List ManifestRecord`, a destination table is a list of rows of nullable
  text cells, and `GETDATE()` / `datetime.now()` are explicit parameters.
* `pyodbc` failures are injected through an explicit fault model
  (`Nat → Option String`, batch index to the raised error message).
* The ingestion entry point records the database operations it performs as a
  trace of `DBOp`s, so "no database or manifest interaction" is expressible.
-/

namespace MetroRetail

/-- A Python scalar value as it can appear in a pandas cell after
`pd.read_csv`: a string, an integer, float NaN, or `None`. -/
inductive PyValue where
  | str (s : String)
  | int (n : Int)
  | nanV
  | noneV
deriving DecidableEq, Repr

/-- Python's `str()` coercion, as applied cell-wise by `df.astype(str)`
(`db_utils.py` line 113): `str(float('nan')) = "nan"`, `str(None) = "None"`. -/
def pyStr : PyValue → String
  | .str s => s
  | .int n => toString n
  | .nanV => "nan"
  | .noneV => "None"

/-- The cell-level staging performed by `bulk_insert_dataframe`
(`db_utils.py` lines 113–117): coerce to text with `astype(str)`, then
`replace('nan', None)` and `replace('None', None)` turn the two missing-value
sentinels into SQL NULL (modelled as `Option.none`). -/
def stageCell (v : PyValue) : Option String :=
  let t := pyStr v
  if t = "nan" then Option.none
  else if t = "None" then Option.none
  else some t

/-- A staged row handed to the database driver: nullable text cells. -/
abbrev Row := List (Option String)

/-- Row-wise staging of the whole frame: `df.astype(str)` followed by the two
`replace` calls, then `data = [tuple(row) for row in df_str.values]`
(`db_utils.py` lines 113–127). -/
def stagedRows (df : List (List PyValue)) : List Row :=
  df.map (fun row => row.map stageCell)

/-- Iteration core of Python's `range(start, stop, step)` for a positive
step, structurally recursive on a fuel bound: each iteration consumes one
unit of fuel and advances `start` by `step ≥ 1`, so any fuel of at least
`stop - start` produces the whole range. -/
def pyRangeAux (step : Nat) : Nat → Nat → Nat → List Nat
  | 0, _, _ => []
  | fuel + 1, start, stop =>
    if start < stop then start :: pyRangeAux step fuel (start + step) stop
    else []

/-- Python's `range(start, stop, step)` for a positive step (the loop header
`for i in range(0, len(data), batch_size)` of `db_utils.py` line 131);
empty for `step = 0` (Python raises there; no caller passes 0). -/
def pyRange (start stop step : Nat) : List Nat :=
  if 0 < step then pyRangeAux step (stop - start) start stop else []

/-- The batches issued by the loop of `db_utils.py` lines 131–132:
`batch = data[i:i+batch_size]` for `i in range(0, len(data), batch_size)`;
the Python slice `data[i:i+bs]` is `(data.drop i).take bs`. -/
def bulkBatches (data : List α) (batch_size : Nat) : List (List α) :=
  (pyRange 0 data.length batch_size).map (fun i => (data.drop i).take batch_size)

/-- A raised Python exception as observed by callers of the loader.
`dbError` is an exception raised by the pyodbc driver layer.
`bulkInsertError` is modelled from the spec: the `BulkInsertError` wrapper the
spec describes, carrying the prior committed row count and the underlying
cause; the source defines no such exception type. -/
inductive PyError where
  | dbError (msg : String)
  | bulkInsertError (priorRows : Nat) (cause : String)
deriving DecidableEq, Repr

/-- Fault model for the database driver inside the batch loop: for each batch
index, `Option.none` means `cursor.executemany` and the following `commit`
succeed; `some msg` means `executemany` raises an exception printing `msg`. -/
abbrev FaultModel := Nat → Option String

/-- The batch loop of `bulk_insert_dataframe` (`db_utils.py` lines 130–141)
with its `except` clause (lines 143–146): batches are inserted and committed
in order; at the first raising batch, `conn.rollback()` discards only that
batch's uncommitted rows (prior batches were each committed) and the
underlying exception is re-raised bare (`raise`). Returns the raised error or
the returned `total_inserted`, paired with the committed content of the
destination table. -/
def runBatches (failAt : FaultModel) : List (List Row) → List Row → Nat → Nat →
    Except PyError Nat × List Row
  | [], committed, _, total => (.ok total, committed)
  | b :: rest, committed, idx, total =>
    match failAt idx with
    | some msg => (.error (.dbError msg), committed)
    | Option.none => runBatches failAt rest (committed ++ b) (idx + 1) (total + b.length)

/-- `DatabaseManager.bulk_insert_dataframe` (`db_utils.py` lines 101–146):
returns 0 on an empty frame (lines 107–109); otherwise stages every cell to
text with the missing-value sentinels mapped to NULL (lines 113–117), slices
the staged rows into batches (lines 131–132) and runs the batch loop.
`committed` is the destination table's previously committed content. -/
def bulk_insert_dataframe (failAt : FaultModel) (committed : List Row)
    (df : List (List PyValue)) (batch_size : Nat) : Except PyError Nat × List Row :=
  if df.isEmpty then (.ok 0, committed)
  else runBatches failAt (bulkBatches (stagedRows df) batch_size) committed 0 0

/-- One row of `Raw.Ingestion_Manifest` (`db_utils.py` lines 50–54, 71–77).
Timestamps returned by `GETDATE()` are abstract ticks. -/
structure ManifestRecord where
  batch_id : String
  source_system : String
  entity_name : String
  source_file : String
  row_count : Nat
  load_start_ts : Nat
  load_end_ts : Option Nat
  load_status : String
  error_message : Option String
deriving DecidableEq, Repr

/-- `DatabaseManager.start_manifest` (`db_utils.py` lines 44–62): INSERT of a
row with `Row_Count = 0`, `Load_Start_TS = GETDATE()`, `Load_Status =
'STARTED'`. The manifest store's `Batch_ID` column is a unique key (the table
DDL is not under `pipelines/`; uniqueness is modelled from the spec's manifest
store interface), so an insert with a duplicate batch id raises and the except
branch returns `False`. -/
def start_manifest (ledger : List ManifestRecord) (now : Nat)
    (batch_id source_system entity_name source_file : String) :
    Bool × List ManifestRecord :=
  if ledger.any (fun r => r.batch_id == batch_id) then (false, ledger)
  else (true, ledger ++ [ManifestRecord.mk batch_id source_system entity_name
    source_file 0 now Option.none "STARTED" Option.none])

/-- `DatabaseManager.complete_manifest` (`db_utils.py` lines 64–85): an UPDATE
of every manifest row whose `Batch_ID` matches, setting `Row_Count`,
`Load_End_TS = GETDATE()`, `Load_Status` and `Error_Message`, then a commit.
The source performs no validation of `status`, does not require a matching
record to exist (an UPDATE matching zero rows succeeds), and returns `True`. -/
def complete_manifest (ledger : List ManifestRecord) (now : Nat)
    (batch_id : String) (row_count : Nat) (status : String)
    (error_message : Option String) : Bool × List ManifestRecord :=
  (true, ledger.map (fun r =>
    if r.batch_id == batch_id then
      { r with row_count := row_count, load_end_ts := some now,
               load_status := status, error_message := error_message }
    else r))

/-- A wall-clock reading at second granularity (`datetime.now()`). -/
structure PyDateTime where
  year : Nat
  month : Nat
  day : Nat
  hour : Nat
  minute : Nat
  second : Nat
deriving DecidableEq, Repr

/-- Python's `str.lower()` as applied to the source-system code
(`ingest_csv.py` line 64): character-wise lowercasing. -/
def pyLower (s : String) : String := String.mk (s.data.map Char.toLower)

/-- A zero-padded two-digit `strftime` field (`%m %d %H %M %S`). -/
def pad2 (n : Nat) : String := if n < 10 then "0" ++ toString n else toString n

/-- `%Y`, zero-padded to four digits. -/
def pad4 (n : Nat) : String :=
  if n < 10 then "000" ++ toString n
  else if n < 100 then "00" ++ toString n
  else if n < 1000 then "0" ++ toString n
  else toString n

/-- `datetime.now().strftime('%Y%m%d_%H%M%S')` (`db_utils.py` line 178). -/
def strftime_ymd_hms (t : PyDateTime) : String :=
  pad4 t.year ++ pad2 t.month ++ pad2 t.day ++ "_"
    ++ pad2 t.hour ++ pad2 t.minute ++ pad2 t.second

/-- `generate_batch_id` (`db_utils.py` lines 173–179) with the clock reading
made an explicit argument: `f"{source}_{entity}_{timestamp}"`. -/
def generate_batch_id (source entity : String) (now : PyDateTime) : String :=
  source ++ "_" ++ entity ++ "_" ++ strftime_ymd_hms now

/-- One value of the `FILE_TABLE_MAP` registry (`config.py` lines 63–104). -/
structure Mapping where
  table : String
  source : String
  entity : String
deriving DecidableEq, Repr

/-- `FILE_TABLE_MAP` (`config.py` lines 63–104). -/
def FILE_TABLE_MAP : List (String × Mapping) :=
  [ ("pos_transactions_header.csv",
      { table := "Raw.pos_transactions_header", source := "POS",
        entity := "transactions_header" }),
    ("pos_transactions_lines.csv",
      { table := "Raw.pos_transactions_lines", source := "POS",
        entity := "transactions_lines" }),
    ("erp_products.csv",
      { table := "Raw.erp_products", source := "ERP", entity := "products" }),
    ("erp_stores.csv",
      { table := "Raw.erp_stores", source := "ERP", entity := "stores" }),
    ("erp_inventory.csv",
      { table := "Raw.erp_inventory", source := "ERP", entity := "inventory" }),
    ("crm_customers.csv",
      { table := "Raw.crm_customers", source := "CRM", entity := "customers" }),
    ("mkt_promotions.csv",
      { table := "Raw.mkt_promotions", source := "MKT", entity := "promotions" }),
    ("api_weather.csv",
      { table := "Raw.api_weather", source := "API", entity := "weather" }) ]

/-- An in-memory pandas frame: column labels and rows of cells. -/
structure Frame where
  columns : List String
  rows : List (List PyValue)
deriving DecidableEq, Repr

/-- Pandas scalar column assignment `df[col] = v`: overwrites the column when
the label is present, else appends a new column; every row gets the scalar. -/
def setColumn (df : Frame) (col : String) (v : PyValue) : Frame :=
  match df.columns.findIdx? (fun c => c == col) with
  | some i => { df with rows := df.rows.map (fun r => r.set i v) }
  | Option.none =>
    { columns := df.columns ++ [col], rows := df.rows.map (fun r => r ++ [v]) }

/-- Pandas label rename `df.rename(columns={src: dst})`. -/
def renameColumn (df : Frame) (src dst : String) : Frame :=
  { df with columns := df.columns.map (fun c => if c == src then dst else c) }

/-- The frame staging of `ingest_csv_file` (`ingest_csv.py` lines 76–81):
inject the `Batch_ID` and `Source_File` metadata columns; for
`api_weather.csv` rename `Store_ID` to `Retail_Location_ID`. -/
def annotate_frame (df : Frame) (batch_id file_name : String) : Frame :=
  let df1 := setColumn df "Batch_ID" (.str batch_id)
  let df2 := setColumn df1 "Source_File" (.str file_name)
  if file_name == "api_weather.csv" && df2.columns.contains "Store_ID" then
    renameColumn df2 "Store_ID" "Retail_Location_ID"
  else df2

/-- An observable database call made by the ingestion path. -/
inductive DBOp where
  | startManifestOp (batch_id source_system entity_name source_file : String)
  | completeManifestOp (batch_id : String) (row_count : Nat) (status : String)
      (error_message : Option String)
  | bulkInsertOp (table : String) (row_count : Nat)
  | truncateTableOp (table : String)
deriving DecidableEq, Repr

/-- The ambient world of one `ingest_csv_file` call: whether
`(SAMPLE_DIR / file_name).exists()` holds, the outcome of
`pd.read_csv(file_path)` (a parse-error message or the parsed frame), and the
wall clock read by `generate_batch_id`. -/
structure Env where
  fileExists : String → Bool
  readCSV : String → Except String Frame
  now : PyDateTime

/-- The batch id minted at `ingest_csv.py` line 64:
`generate_batch_id(source_system.lower(), entity_name)`. -/
def mintBatchId (m : Mapping) (now : PyDateTime) : String :=
  generate_batch_id (pyLower m.source) m.entity now

/-- `ingest_csv_file` (`ingest_csv.py` lines 32–99), returning the boolean
result and the trace of database operations performed. Faithful to the
source: after the existence check (lines 48–51), the registry check
(lines 54–56) and the batch-id mint (line 64), the body reads the CSV,
annotates the frame (lines 76–81) and returns `True`; the annotated frame is
a local that is dropped, no `DatabaseManager` method is ever invoked (the
code after the first `return` at line 85 is unreachable), and the `truncate`
argument is never read. A read failure is caught at lines 87–89 and returns
`False`. -/
def ingest_csv_file (env : Env) (file_name : String) (truncate : Bool) :
    Bool × List DBOp :=
  if ¬ env.fileExists file_name then (false, [])
  else
    match FILE_TABLE_MAP.lookup file_name with
    | Option.none => (false, [])
    | some mapping =>
      let batch_id := mintBatchId mapping env.now
      match env.readCSV file_name with
      | .error _ => (false, [])
      | .ok df =>
        let _staged := annotate_frame df batch_id file_name
        (true, [])

/-- `ingest_all_csv_files` (`ingest_csv.py` lines 102–140): runs
`ingest_csv_file` on every key of `FILE_TABLE_MAP` in order, collecting
`results[file_name] = success`. -/
def ingest_all_csv_files (env : Env) (truncate : Bool) : List (String × Bool) :=
  FILE_TABLE_MAP.map (fun p => (p.fst, (ingest_csv_file env p.fst truncate).fst))

/-- Does a loader outcome report the spec's `BulkInsertError`? -/
def isBulkInsertError : Except PyError Nat → Bool
  | .error (.bulkInsertError _ _) => true
  | _ => false

/-- A sample parsed frame: three product rows, one with a missing cell. -/
def exFrame : Frame :=
  { columns := ["Product_ID", "Product_Name"],
    rows := [[.str "P1", .str "Soap"], [.str "P2", .nanV], [.str "P3", .str "Tea"]] }

/-- A world where every file exists and parses to `exFrame`. -/
def exEnvOk : Env :=
  { fileExists := fun _ => true,
    readCSV := fun _ => .ok exFrame,
    now := PyDateTime.mk 2025 1 2 3 4 5 }

/-- A world where no source file is present in the sample directory. -/
def exEnvMissing : Env :=
  { fileExists := fun _ => false,
    readCSV := fun f => .error ("No such file or directory: " ++ f),
    now := PyDateTime.mk 2025 1 2 3 4 5 }

/-- A world where the source files exist but are unparsable. -/
def exEnvCorrupt : Env :=
  { fileExists := fun _ => true,
    readCSV := fun _ => .error "ParserError: Error tokenizing data",
    now := PyDateTime.mk 2025 1 2 3 4 5 }

/-- Fault model in which the second batch (index 1) raises. -/
def exFailSecond : FaultModel :=
  fun i => if i = 1 then some "deadlock victim" else Option.none

/-- A three-row, single-column frame to be inserted. -/
def exDf : List (List PyValue) := [[.str "r1"], [.str "r2"], [.str "r3"]]

/-- A STARTED manifest record as `start_manifest` creates it. -/
def exRecord : ManifestRecord :=
  ManifestRecord.mk "erp_products_20250102_030405" "ERP" "products"
    "erp_products.csv" 0 3 Option.none "STARTED" Option.none

theorem pyRangeAux_fuel (step : Nat) (hs : 0 < step) :
    ∀ fuel fuel' start stop, stop - start ≤ fuel → stop - start ≤ fuel' →
      pyRangeAux step fuel start stop = pyRangeAux step fuel' start stop := by
  intro fuel
  induction fuel with
  | zero =>
    intro fuel' start stop h h'
    cases fuel' with
    | zero => rfl
    | succ f' =>
      simp only [pyRangeAux]
      rw [if_neg (by omega)]
  | succ f ih =>
    intro fuel' start stop h h'
    cases fuel' with
    | zero =>
      simp only [pyRangeAux]
      rw [if_neg (by omega)]
    | succ f' =>
      simp only [pyRangeAux]
      by_cases hlt : start < stop
      · rw [if_pos hlt, if_pos hlt,
          ih f' (start + step) stop (by omega) (by omega)]
      · rw [if_neg hlt, if_neg hlt]

theorem pyRange_nil (start stop step : Nat) (h : ¬ (0 < step ∧ start < stop)) :
    pyRange start stop step = [] := by
  rw [pyRange]
  by_cases hs : 0 < step
  · rw [if_pos hs, show stop - start = 0 from by omega]
    rfl
  · rw [if_neg hs]

theorem pyRange_cons (start stop step : Nat) (h : 0 < step ∧ start < stop) :
    pyRange start stop step = start :: pyRange (start + step) stop step := by
  obtain ⟨hs, hlt⟩ := h
  rw [pyRange, pyRange, if_pos hs, if_pos hs,
    show stop - start = (stop - start - 1) + 1 from by omega]
  simp only [pyRangeAux]
  rw [if_pos hlt, pyRangeAux_fuel step hs (stop - start - 1)
    (stop - (start + step)) (start + step) stop (by omega) (by omega)]

theorem bulk_join_aux (bs : Nat) (hbs : 0 < bs) (full : List α) (start : Nat) :
    ((pyRange start full.length bs).map (fun i => (full.drop i).take bs)).flatten
      = full.drop start := by
  by_cases h : start < full.length
  · rw [pyRange_cons start full.length bs ⟨hbs, h⟩, List.map_cons, List.flatten_cons,
      bulk_join_aux bs hbs full (start + bs)]
    rw [show full.drop (start + bs) = (full.drop start).drop bs from by
      rw [List.drop_drop, Nat.add_comm]]
    exact List.take_append_drop bs (full.drop start)
  · rw [pyRange_nil start full.length bs (by omega), List.map_nil, List.flatten_nil,
      Eq.comm, List.drop_eq_nil_iff]
    omega
termination_by full.length - start
decreasing_by simp_wf; omega

theorem pyRange_length (step : Nat) (hs : 0 < step) (stop start : Nat) :
    (pyRange start stop step).length = (stop - start + step - 1) / step := by
  by_cases h : start < stop
  · rw [pyRange_cons start stop step ⟨hs, h⟩, List.length_cons,
      pyRange_length step hs stop (start + step)]
    have hd : 1 ≤ stop - start := by omega
    rcases le_or_lt step (stop - start) with hle | hlt
    · have h1 : stop - (start + step) + step - 1 = stop - start - 1 := by omega
      have h2 : stop - start + step - 1 = (stop - start - 1) + step := by omega
      rw [h1, h2, Nat.add_div_right _ hs]
    · have h1 : stop - (start + step) + step - 1 = step - 1 := by omega
      have h2 : stop - start + step - 1 = (stop - start - 1) + step := by omega
      rw [h1, h2, Nat.add_div_right _ hs, Nat.div_eq_of_lt (by omega),
        Nat.div_eq_of_lt (by omega)]
  · rw [pyRange_nil start stop step (by omega), List.length_nil,
      show stop - start = 0 from by omega, Nat.zero_add,
      Nat.div_eq_of_lt (by omega)]
termination_by stop - start
decreasing_by simp_wf; omega

theorem bulkBatches_length (data : List α) (bs : Nat) (hbs : 0 < bs) :
    (bulkBatches data bs).length = (data.length + bs - 1) / bs := by
  rw [bulkBatches, List.length_map, pyRange_length bs hbs data.length 0, Nat.sub_zero]

theorem bulkBatches_flatten (data : List α) (bs : Nat) (hbs : 0 < bs) :
    (bulkBatches data bs).flatten = data := by
  rw [bulkBatches, bulk_join_aux bs hbs data 0, List.drop_zero]

theorem runBatches_ok (failAt : FaultModel) (batches : List (List Row)) :
    ∀ committed idx total, (∀ j, j < batches.length → failAt (idx + j) = Option.none) →
    runBatches failAt batches committed idx total =
      (.ok (total + (batches.map List.length).sum), committed ++ batches.flatten) := by
  induction batches with
  | nil => intro committed idx total _; simp [runBatches]
  | cons b rest ih =>
    intro committed idx total hok
    have h0 : failAt idx = Option.none := by simpa using hok 0 (by simp)
    simp only [runBatches, h0]
    rw [ih (committed ++ b) (idx + 1) (total + b.length) (fun j hj => by
      rw [show idx + 1 + j = idx + (j + 1) from by omega]
      exact hok (j + 1) (by simpa using Nat.succ_lt_succ hj))]
    simp [List.flatten_cons, Nat.add_assoc]

theorem runBatches_fail (failAt : FaultModel) (batches : List (List Row)) :
    ∀ committed idx total k msg, k < batches.length →
    failAt (idx + k) = some msg → (∀ j, j < k → failAt (idx + j) = Option.none) →
    runBatches failAt batches committed idx total =
      (.error (.dbError msg), committed ++ (batches.take k).flatten) := by
  induction batches with
  | nil => intro _ _ _ k _ hk _ _; simp at hk
  | cons b rest ih =>
    intro committed idx total k msg hk hfail hprev
    cases k with
    | zero =>
      have h0 : failAt idx = some msg := by simpa using hfail
      simp [runBatches, h0]
    | succ m =>
      have h0 : failAt idx = Option.none := by simpa using hprev 0 (Nat.succ_pos m)
      simp only [runBatches, h0]
      rw [ih (committed ++ b) (idx + 1) (total + b.length) m msg
        (by simpa using Nat.lt_of_succ_lt_succ hk)
        (by rw [show idx + 1 + m = idx + (m + 1) from by omega]; exact hfail)
        (fun j hj => by
          rw [show idx + 1 + j = idx + (j + 1) from by omega]
          exact hprev (j + 1) (by omega))]
      simp [List.take_succ_cons, List.flatten_cons]

theorem runBatches_snd (failAt : FaultModel) (batches : List (List Row)) :
    ∀ committed idx total, ∃ m,
      (runBatches failAt batches committed idx total).snd
        = committed ++ (batches.take m).flatten := by
  induction batches with
  | nil => intro committed idx total; exact ⟨0, by simp [runBatches]⟩
  | cons b rest ih =>
    intro committed idx total
    cases hf : failAt idx with
    | some msg => exact ⟨0, by simp [runBatches, hf]⟩
    | none =>
      obtain ⟨m, hm⟩ := ih (committed ++ b) (idx + 1) (total + b.length)
      exact ⟨m + 1, by
        simp only [runBatches, hf, hm, List.take_succ_cons, List.flatten_cons]
        simp⟩

theorem stageCell_ne_sentinel (v : PyValue) :
    stageCell v ≠ some "nan" ∧ stageCell v ≠ some "None" := by
  rw [stageCell]
  by_cases h1 : pyStr v = "nan" <;> by_cases h2 : pyStr v = "None" <;> simp [h1, h2]

theorem ingest_trace_nil (env : Env) (file_name : String) (t : Bool) :
    (ingest_csv_file env file_name t).snd = [] := by
  rw [ingest_csv_file]
  by_cases hex : env.fileExists file_name
  · rw [if_neg (by simp [hex])]
    cases hl : FILE_TABLE_MAP.lookup file_name with
    | none => rfl
    | some m =>
      cases hr : env.readCSV file_name with
      | error e => simp [hr]
      | ok df => simp [hr]
  · rw [if_pos (by simp [hex])]

theorem ingest_csv_file_congr (env env' : Env) (f : String) (t : Bool)
    (hex : env.fileExists f = env'.fileExists f)
    (hcsv : env.readCSV f = env'.readCSV f) :
    (ingest_csv_file env f t).fst = (ingest_csv_file env' f t).fst := by
  rw [ingest_csv_file, ingest_csv_file, ← hex, ← hcsv]

theorem lookup_ingest_all (env : Env) (t : Bool) (f : String) :
    (ingest_all_csv_files env t).lookup f
      = (FILE_TABLE_MAP.lookup f).map (fun _ => (ingest_csv_file env f t).fst) := by
  rw [ingest_all_csv_files]
  induction FILE_TABLE_MAP with
  | nil => rfl
  | cons p rest ih =>
    rw [List.map_cons]
    rcases p with ⟨k, m⟩
    cases hbeq : f == k with
    | true =>
      have hk : f = k := eq_of_beq hbeq
      simp [List.lookup, hbeq, hk]
    | false => simp [List.lookup, hbeq, ih]

theorem bulk_insert_success (failAt : FaultModel) (committed : List Row)
    (df : List (List PyValue)) (bs : Nat) (hbs : 0 < bs)
    (hok : ∀ j, failAt j = Option.none) :
    bulk_insert_dataframe failAt committed df bs
      = (.ok df.length, committed ++ stagedRows df) := by
  rw [bulk_insert_dataframe]
  by_cases hdf : df.isEmpty
  · rw [if_pos hdf]
    have hnil : df = [] := List.isEmpty_iff.mp hdf
    subst hnil
    simp [stagedRows]
  · rw [if_neg hdf, runBatches_ok failAt _ committed 0 0 (fun j _ => hok _)]
    have hsum : ((bulkBatches (stagedRows df) bs).map List.length).sum = df.length := by
      rw [← List.length_flatten, bulkBatches_flatten _ bs hbs]
      simp [stagedRows]
    rw [hsum, bulkBatches_flatten _ bs hbs, Nat.zero_add]

/-- C1 (code-bug evidence): in a world where `erp_products.csv` exists in the
sample directory and parses, `ingest_csv_file` reports success while
performing no database operation at all — no STARTED manifest record is
created, no rows are written to the destination table, and no manifest record
is updated to COMPLETED. -/
theorem C1_success_without_any_db_operation :
    ingest_csv_file exEnvOk "erp_products.csv" false = (true, []) := by rfl

/-- C2 counterexample: with three staged rows, batch size 1 and the second
batch raising "deadlock victim", the loader re-raises the bare driver error:
the outcome is not the `BulkInsertError` of the claim and carries no count of
previously committed rows, although one row (from batch 0) stays committed. -/
theorem C2_counterexample :
    bulk_insert_dataframe exFailSecond [] exDf 1
      = (.error (.dbError "deadlock victim"), [[some "r1"]]) ∧
    isBulkInsertError (bulk_insert_dataframe exFailSecond [] exDf 1).fst = false :=
  ⟨by rfl, by rfl⟩

/-- C2 (amended): when batch `k` raises during the bulk write, all earlier
batches having committed, only that batch's uncommitted work is rolled back —
the destination ends with exactly the prior content plus the rows of batches
`0..k-1` — and the operation fails by re-raising the underlying driver error
bare; no prior-row count is reported and no `BulkInsertError` wrapper is
raised. -/
theorem C2_failed_batch_rollback (failAt : FaultModel) (committed : List Row)
    (df : List (List PyValue)) (bs k : Nat) (msg : String)
    (hk : k < (bulkBatches (stagedRows df) bs).length)
    (hfail : failAt k = some msg)
    (hprev : ∀ j, j < k → failAt j = Option.none) :
    bulk_insert_dataframe failAt committed df bs
      = (.error (.dbError msg),
         committed ++ ((bulkBatches (stagedRows df) bs).take k).flatten) := by
  rw [bulk_insert_dataframe]
  have hne : df.isEmpty = false := by
    cases hdf : df.isEmpty
    · rfl
    · exfalso
      rw [List.isEmpty_iff.mp hdf] at hk
      simp [stagedRows, bulkBatches, pyRange, pyRangeAux] at hk
  rw [hne, if_neg (by simp)]
  exact runBatches_fail failAt _ committed 0 0 k msg hk
    (by simpa using hfail) (fun j hj => by simpa using hprev j hj)

/-- Witness for C2 (amended) at the concrete failing scenario of
`C2_counterexample`: batch size 1 and a fault at batch index 1. -/
theorem C2_failed_batch_rollback_witness :
    (1 < (bulkBatches (stagedRows exDf) 1).length ∧ exFailSecond 1 = some "deadlock victim") ∧
    bulk_insert_dataframe exFailSecond [] exDf 1
      = (.error (.dbError "deadlock victim"),
         [] ++ ((bulkBatches (stagedRows exDf) 1).take 1).flatten) :=
  ⟨⟨by decide, by decide⟩,
   C2_failed_batch_rollback exFailSecond [] exDf 1 1 "deadlock victim"
     (by decide) (by decide) (by decide)⟩

/-- C3: for every non-empty input of N rows and every batch size B ≥ 1, the
bulk writer issues exactly ceil(N/B) = (N+B-1)/B batch operations, the batch
sizes sum to N, and the concatenation of the batches in issue order equals
the input — the batches partition the input exactly, with no row dropped,
duplicated or reordered. -/
theorem C3_batch_partitioning (data : List Row) (bs : Nat)
    (hbs : 1 ≤ bs) (hne : data ≠ []) :
    (bulkBatches data bs).length = (data.length + bs - 1) / bs ∧
    ((bulkBatches data bs).map List.length).sum = data.length ∧
    (bulkBatches data bs).flatten = data := by
  refine ⟨bulkBatches_length data bs hbs, ?_, bulkBatches_flatten data bs hbs⟩
  rw [← List.length_flatten, bulkBatches_flatten data bs hbs]

/-- Witness for C3: five rows, batch size 2 — three batches. -/
theorem C3_batch_partitioning_witness :
    (1 ≤ 2 ∧ ([[some "a"], [some "b"], [some "c"], [some "d"], [some "e"]] : List Row) ≠ []) ∧
    (bulkBatches ([[some "a"], [some "b"], [some "c"], [some "d"], [some "e"]] : List Row) 2).length
      = (5 + 2 - 1) / 2 :=
  ⟨⟨by decide, by decide⟩,
   (C3_batch_partitioning [[some "a"], [some "b"], [some "c"], [some "d"], [some "e"]] 2
     (by decide) (by decide)).1⟩

/-- C4 counterexample: completing a batch id for which no manifest record
exists (empty ledger), with the non-terminal status "RUNNING", reports
success and leaves the ledger unchanged — the source neither restricts the
status value to COMPLETED/FAILED nor fails when no matching STARTED record
exists. -/
theorem C4_counterexample :
    complete_manifest [] 7 "erp_products_20250102_030405" 5 "RUNNING" Option.none
      = (true, []) := by rfl

/-- C4 (amended): `complete_manifest` performs no validation of the status
value and requires no matching record: it always reports success, updates
exactly the records whose batch id matches (whatever their current status),
leaves every other record unchanged, and never creates a record. -/
theorem C4_complete_manifest_behavior (ledger : List ManifestRecord) (now : Nat)
    (batch_id : String) (row_count : Nat) (status : String)
    (error_message : Option String) :
    (complete_manifest ledger now batch_id row_count status error_message).fst = true ∧
    (complete_manifest ledger now batch_id row_count status error_message).snd.length
      = ledger.length ∧
    (∀ r, r ∈ ledger → r.batch_id ≠ batch_id →
      r ∈ (complete_manifest ledger now batch_id row_count status error_message).snd) ∧
    (∀ r, r ∈ ledger → r.batch_id = batch_id →
      { r with row_count := row_count, load_end_ts := some now,
               load_status := status, error_message := error_message }
        ∈ (complete_manifest ledger now batch_id row_count status error_message).snd) := by
  refine ⟨rfl, by simp [complete_manifest], ?_, ?_⟩
  · intro r hr hne
    rw [complete_manifest]
    exact List.mem_map.mpr ⟨r, hr, by simp [hne]⟩
  · intro r hr heq
    rw [complete_manifest]
    exact List.mem_map.mpr ⟨r, hr, by simp [heq]⟩

/-- Witness for C4 (amended): completing a STARTED record updates it in
place. -/
theorem C4_complete_manifest_behavior_witness :
    (exRecord.batch_id = "erp_products_20250102_030405") ∧
    ({ exRecord with
        row_count := 250, load_end_ts := some 9,
        load_status := "COMPLETED", error_message := Option.none } : ManifestRecord)
      ∈ (complete_manifest [exRecord] 9 "erp_products_20250102_030405" 250
          "COMPLETED" Option.none).snd :=
  ⟨by decide,
   (C4_complete_manifest_behavior [exRecord] 9 "erp_products_20250102_030405" 250
     "COMPLETED" Option.none).2.2.2 exRecord (by decide) (by decide)⟩

/-- C5 (code-bug evidence): for a registered file that is missing from the
sample directory, and for a registered file that exists but fails to parse,
ingestion returns failure without any manifest interaction: no manifest
record was ever created, so no record transitions from STARTED to FAILED and
no error message is recorded anywhere. -/
theorem C5_failure_without_manifest_transition :
    ingest_csv_file exEnvMissing "erp_products.csv" false = (false, []) ∧
    ingest_csv_file exEnvCorrupt "erp_products.csv" false = (false, []) :=
  ⟨by rfl, by rfl⟩

/-- C6: before handoff to the batch loop every value is coerced to its text
form and any cell whose text form is "nan" or "None" becomes an explicit
NULL; consequently a row committed to the destination by the bulk writer is
either prior table content or a staged row containing no cell equal to the
literal text "nan" or "None". -/
theorem C6_null_normalization :
    (∀ v : PyValue, stageCell v
        = if pyStr v = "nan" ∨ pyStr v = "None" then Option.none
          else some (pyStr v)) ∧
    (∀ (failAt : FaultModel) (committed : List Row) (df : List (List PyValue))
        (bs : Nat) (row : Row),
      row ∈ (bulk_insert_dataframe failAt committed df bs).snd →
      row ∈ committed ∨ ∀ cell ∈ row, cell ≠ some "nan" ∧ cell ≠ some "None") := by
  constructor
  · intro v
    rw [stageCell]
    by_cases h1 : pyStr v = "nan"
    · simp [h1]
    · by_cases h2 : pyStr v = "None"
      · simp [h1, h2]
      · simp [h1, h2]
  · intro failAt committed df bs row hrow
    rw [bulk_insert_dataframe] at hrow
    by_cases hdf : df.isEmpty
    · rw [if_pos hdf] at hrow
      exact Or.inl hrow
    · rw [if_neg hdf] at hrow
      obtain ⟨m, hm⟩ :=
        runBatches_snd failAt (bulkBatches (stagedRows df) bs) committed 0 0
      rw [hm] at hrow
      rcases List.mem_append.mp hrow with hc | hs
      · exact Or.inl hc
      · right
        intro cell hcell
        obtain ⟨b, hb, hrb⟩ := List.mem_flatten.mp hs
        have hbb : b ∈ bulkBatches (stagedRows df) bs := List.mem_of_mem_take hb
        obtain ⟨i, _, hbeq⟩ := List.mem_map.mp hbb
        rw [← hbeq] at hrb
        have hrow_staged : row ∈ stagedRows df :=
          List.mem_of_mem_drop (List.mem_of_mem_take hrb)
        obtain ⟨r0, _, hr0⟩ := List.mem_map.mp hrow_staged
        rw [← hr0] at hcell
        obtain ⟨v, _, hv⟩ := List.mem_map.mp hcell
        rw [← hv]
        exact stageCell_ne_sentinel v

/-- Witness for C6: inserting a frame with a NaN cell commits the row with an
explicit NULL in that position, and the committed row contains no "nan" or
"None" literal. -/
theorem C6_null_normalization_witness :
    ([Option.none, some "x"] : Row)
      ∈ (bulk_insert_dataframe (fun _ => Option.none) []
          [[PyValue.nanV, PyValue.str "x"]] 1).snd ∧
    (([Option.none, some "x"] : Row) ∈ ([] : List Row) ∨
      ∀ cell ∈ ([Option.none, some "x"] : Row),
        cell ≠ some "nan" ∧ cell ≠ some "None") :=
  ⟨by decide, C6_null_normalization.2 (fun _ => Option.none) []
      [[PyValue.nanV, PyValue.str "x"]] 1 [Option.none, some "x"] (by decide)⟩

/-- C7: for a file name with no registry mapping, ingestion returns failure
having performed no database or manifest operation whatsoever — in
particular no manifest record is created for any batch id derived from that
file. -/
theorem C7_unmapped_file (env : Env) (file_name : String) (truncate : Bool)
    (h : FILE_TABLE_MAP.lookup file_name = Option.none) :
    ingest_csv_file env file_name truncate = (false, []) := by
  rw [ingest_csv_file, h]
  by_cases hex : env.fileExists file_name
  · rw [if_neg (by simp [hex])]
  · rw [if_pos (by simp [hex])]

/-- Witness for C7 at the spec's concrete scenario: `unknown.csv` has no
registry entry, and ingestion returns failure with an empty operation
trace. -/
theorem C7_unmapped_file_witness :
    FILE_TABLE_MAP.lookup "unknown.csv" = Option.none ∧
    ingest_csv_file exEnvOk "unknown.csv" false = (false, []) :=
  ⟨by decide, C7_unmapped_file exEnvOk "unknown.csv" false (by decide)⟩

/-- C8: the minted batch id is the lowercased source system, the entity name,
the YYYYMMDD date and the HHMMSS time of the clock reading joined by
underscores; minting is a pure function of the mapping and the clock reading
(no other state), so two mints for the same source system and entity within
the same clock second produce the same batch id. -/
theorem C8_batch_id_format (m : Mapping) (t : PyDateTime) :
    mintBatchId m t
      = String.intercalate "_" [pyLower m.source, m.entity,
          pad4 t.year ++ pad2 t.month ++ pad2 t.day,
          pad2 t.hour ++ pad2 t.minute ++ pad2 t.second] ∧
    (∀ (m' : Mapping) (t' : PyDateTime),
      m'.source = m.source → m'.entity = m.entity → t' = t →
      mintBatchId m' t' = mintBatchId m t) := by
  constructor
  · rw [mintBatchId, generate_batch_id, strftime_ymd_hms]
    simp [String.intercalate, String.intercalate.go, String.append_assoc]
  · intro m' t' hs he ht
    rw [mintBatchId, mintBatchId, generate_batch_id, generate_batch_id, hs, he, ht]

/-- Witness for C8: the ERP products mapping at 2025-01-02 03:04:05 mints
`erp_products_20250102_030405`, and a mapping agreeing on source and entity
(though differing in destination table) mints the same id in the same
second. -/
theorem C8_batch_id_format_witness :
    mintBatchId (Mapping.mk "Raw.erp_products" "ERP" "products")
        (PyDateTime.mk 2025 1 2 3 4 5)
      = "erp_products_20250102_030405" ∧
    mintBatchId (Mapping.mk "another_table" "ERP" "products")
        (PyDateTime.mk 2025 1 2 3 4 5)
      = mintBatchId (Mapping.mk "Raw.erp_products" "ERP" "products")
          (PyDateTime.mk 2025 1 2 3 4 5) :=
  ⟨by decide,
   (C8_batch_id_format (Mapping.mk "Raw.erp_products" "ERP" "products")
       (PyDateTime.mk 2025 1 2 3 4 5)).2
     (Mapping.mk "another_table" "ERP" "products")
     (PyDateTime.mk 2025 1 2 3 4 5) rfl rfl rfl⟩

/-- C9: ingest-all attempts every registered file and returns one outcome per
registered file: the result keys are exactly the registry keys in order, the
recorded outcome for each registered file is that file's own single-file
result, and the outcome recorded for a file depends only on the world's
behaviour at that very file — another file's failure cannot prevent or alter
it. -/
theorem C9_ingest_all_independent (env : Env) (t : Bool) :
    ((ingest_all_csv_files env t).map Prod.fst = FILE_TABLE_MAP.map Prod.fst) ∧
    (∀ f m, FILE_TABLE_MAP.lookup f = some m →
      (ingest_all_csv_files env t).lookup f
        = some (ingest_csv_file env f t).fst) ∧
    (∀ (env' : Env) (f : String),
      env.fileExists f = env'.fileExists f → env.readCSV f = env'.readCSV f →
      (ingest_all_csv_files env t).lookup f
        = (ingest_all_csv_files env' t).lookup f) := by
  refine ⟨rfl, ?_, ?_⟩
  · intro f m h
    rw [lookup_ingest_all, h]
    rfl
  · intro env' f hex hcsv
    rw [lookup_ingest_all, lookup_ingest_all,
      ingest_csv_file_congr env env' f t hex hcsv]

/-- Witness for C9: in a world where every file exists and parses,
`erp_products.csv` is registered and its recorded outcome is its own
single-file result. -/
theorem C9_ingest_all_independent_witness :
    FILE_TABLE_MAP.lookup "erp_products.csv"
      = some (Mapping.mk "Raw.erp_products" "ERP" "products") ∧
    (ingest_all_csv_files exEnvOk false).lookup "erp_products.csv"
      = some (ingest_csv_file exEnvOk "erp_products.csv" false).fst :=
  ⟨by decide, (C9_ingest_all_independent exEnvOk false).2.1 "erp_products.csv"
      (Mapping.mk "Raw.erp_products" "ERP" "products") (by decide)⟩

/-- C10: the truncate flag is dead: for every world and file name the result
and effects of ingestion with `truncate=True` and with `truncate=False` are
identical, and the trace of database operations is empty either way — so in
particular no truncate-table operation is ever performed by the ingestion
path, regardless of the flag. -/
theorem C10_truncate_flag_dead (env : Env) (file_name : String) :
    ingest_csv_file env file_name true = ingest_csv_file env file_name false ∧
    (∀ t : Bool, (ingest_csv_file env file_name t).snd = []) :=
  ⟨rfl, fun t => ingest_trace_nil env file_name t⟩

end MetroRetail
